import Mathlib

/-!
Verification development for the terminal-prompt engine (inquire).

The development shallowly embeds the core components described by the
design document and present in the Rust sources: the cursor-accurate
input buffer, the key-to-action mapping layer, the pagination function,
the diff-minimal renderer with its line-count bookkeeping, and the
validate/submit/confirm control loop of the password prompt.

Text is represented as List Char (one element per Unicode scalar value),
matching the cursor semantics of the buffer (scalar index, not bytes).
The usize counter of the renderer is represented as a Nat together with
explicit saturation at USIZE_MAX, mirroring saturating_add in the source.
-/

set_option linter.unusedVariables false
set_option linter.unnecessarySeqFocus false
set_option linter.unreachableTactic false
set_option linter.unusedTactic false

namespace Inquire

/-- Modelled from the spec: the modifier set paired with each key
(section 6, key model: none, shift, ctrl, alt combinations). The concrete
key module is not under src. -/
structure KeyModifiers where
  shift : Bool
  ctrl : Bool
  alt : Bool
  deriving DecidableEq

/-- Modelled from the spec: the empty modifier set (written NONE in the
source patterns that are under src). -/
def KeyModifiers.NONE : KeyModifiers := ⟨false, false, false⟩

/-- Modelled from the spec: the closed key variant set consumed from the
backend (section 6): character keys, Enter, Escape, Backspace, Delete,
arrows, Tab, PageUp and PageDown, Home and End; arrows, delete and
character keys carry a modifier set, matching the patterns used by the
action mapper that is under src. -/
inductive Key where
  | escape
  | enter
  | tab
  | backspace
  | delete (m : KeyModifiers)
  | home
  | endKey
  | pageUp
  | pageDown
  | up (m : KeyModifiers)
  | down (m : KeyModifiers)
  | left (m : KeyModifiers)
  | right (m : KeyModifiers)
  | char (c : Char) (m : KeyModifiers)
  deriving DecidableEq

/-- Modelled from the spec: the shared input-editing action subset
(section 3, Semantic Action): MoveLeft, MoveRight, MoveToStart, MoveToEnd,
MoveWordLeft, MoveWordRight, DeleteLeft, DeleteRight, DeleteWordLeft,
Insert(char), Submit, Cancel. The input action module is not under src. -/
inductive InputAction where
  | moveLeft
  | moveRight
  | moveToStart
  | moveToEnd
  | moveWordLeft
  | moveWordRight
  | deleteLeft
  | deleteRight
  | deleteWordLeft
  | insert (c : Char)
  | submit
  | cancel
  deriving DecidableEq

/-- Modelled from the spec: the shared key-to-action lookup table for the
input-editing subset (sections 3 and 6; the module holding it is not under
src). Plain arrows move by one scalar, ctrl-arrows move by words, Home and
End jump to the buffer bounds, Backspace and Delete erase one scalar,
ctrl-Backspace erases a word, unmodified character keys insert, Enter
submits and Escape cancels; every other key is unmapped. -/
def InputAction.fromKey (key : Key) (_config : Unit) : Option InputAction :=
  match key with
  | .left m =>
      if m = KeyModifiers.NONE then some .moveLeft
      else if m.ctrl then some .moveWordLeft
      else none
  | .right m =>
      if m = KeyModifiers.NONE then some .moveRight
      else if m.ctrl then some .moveWordRight
      else none
  | .home => some .moveToStart
  | .endKey => some .moveToEnd
  | .backspace => some .deleteLeft
  | .delete m =>
      if m.ctrl then some .deleteWordLeft else some .deleteRight
  | .enter => some .submit
  | .escape => some .cancel
  | .char c m =>
      if m = KeyModifiers.NONE ∨ m = ⟨true, false, false⟩ then some (.insert c)
      else none
  | _ => none

/-- Modelled from the spec: the Input Buffer data model (section 3):
an ordered sequence of Unicode scalar values plus an integer scalar-index
cursor. The input module is not under src. -/
structure Input where
  content : List Char
  cursor : Nat
  deriving DecidableEq

/-- Modelled from the spec: insert(ch) inserts ch at the cursor, then
advances the cursor by one; always succeeds (section 4.1). -/
def Input.insert (inp : Input) (c : Char) : Input :=
  { content := inp.content.take inp.cursor ++ c :: inp.content.drop inp.cursor
    cursor := inp.cursor + 1 }

/-- Modelled from the spec: delete_left is a no-op when the cursor is 0,
otherwise it removes the scalar left of the cursor and decrements the
cursor (section 4.1). -/
def Input.deleteLeft (inp : Input) : Input :=
  if inp.cursor = 0 then inp
  else
    { content := inp.content.take (inp.cursor - 1) ++ inp.content.drop inp.cursor
      cursor := inp.cursor - 1 }

/-- Modelled from the spec: delete_right is a no-op when the cursor sits
at the end of the content, otherwise it removes the scalar at the cursor,
leaving the cursor in place (section 4.1). -/
def Input.deleteRight (inp : Input) : Input :=
  if inp.cursor = inp.content.length then inp
  else
    { content := inp.content.take inp.cursor ++ inp.content.drop (inp.cursor + 1)
      cursor := inp.cursor }

/-- Modelled from the spec: move_left clamps at the lower buffer bound,
a no-op at the edge rather than an error (section 4.1). -/
def Input.moveLeft (inp : Input) : Input :=
  { inp with cursor := inp.cursor - 1 }

/-- Modelled from the spec: move_right clamps at the upper buffer bound,
a no-op at the edge rather than an error (section 4.1). -/
def Input.moveRight (inp : Input) : Input :=
  { inp with cursor := min (inp.cursor + 1) inp.content.length }

/-- Modelled from the spec: move_to_start sets the cursor to 0
(section 4.1). -/
def Input.moveToStart (inp : Input) : Input :=
  { inp with cursor := 0 }

/-- Modelled from the spec: move_to_end sets the cursor to the content
length (section 4.1). -/
def Input.moveToEnd (inp : Input) : Input :=
  { inp with cursor := inp.content.length }

/-- Modelled from the spec: move_word_left skips contiguous whitespace to
the left of the cursor, then contiguous non-whitespace, landing on a word
boundary without crossing the buffer bounds (section 4.1). -/
def Input.moveWordLeft (inp : Input) : Input :=
  { inp with
      cursor :=
        ((((inp.content.take inp.cursor).reverse.dropWhile
            (fun c => c.isWhitespace)).dropWhile
            (fun c => ¬ c.isWhitespace)).length) }

/-- Modelled from the spec: move_word_right skips contiguous whitespace to
the right of the cursor, then contiguous non-whitespace, landing on a word
boundary without crossing the buffer bounds (section 4.1). -/
def Input.moveWordRight (inp : Input) : Input :=
  { inp with
      cursor :=
        inp.cursor +
          ((inp.content.drop inp.cursor).length -
            (((inp.content.drop inp.cursor).dropWhile
                (fun c => c.isWhitespace)).dropWhile
                (fun c => ¬ c.isWhitespace)).length) }

/-- Modelled from the spec: split() returns three disjoint slices: the
content before the cursor, the single scalar at the cursor (or a
placeholder space when the cursor is at end-of-content, so the cursor
remains visibly renderable), and the content after (section 4.1). -/
def Input.split (inp : Input) : List Char × List Char × List Char :=
  ( inp.content.take inp.cursor
  , if inp.cursor < inp.content.length then
      [inp.content.getD inp.cursor ' ']
    else
      [' ']
  , inp.content.drop (inp.cursor + 1) )

/-- Buffer operations named by the testable-properties section: insert,
delete_left, delete_right and the move operations. -/
inductive InputOp where
  | insert (c : Char)
  | deleteLeft
  | deleteRight
  | moveLeft
  | moveRight
  | moveToStart
  | moveToEnd
  | moveWordLeft
  | moveWordRight
  deriving DecidableEq

/-- Application of one buffer operation. -/
def Input.applyOp (inp : Input) : InputOp → Input
  | .insert c => inp.insert c
  | .deleteLeft => inp.deleteLeft
  | .deleteRight => inp.deleteRight
  | .moveLeft => inp.moveLeft
  | .moveRight => inp.moveRight
  | .moveToStart => inp.moveToStart
  | .moveToEnd => inp.moveToEnd
  | .moveWordLeft => inp.moveWordLeft
  | .moveWordRight => inp.moveWordRight

/-- Application of a sequence of buffer operations, first operation
first. -/
def Input.applyOps (inp : Input) : List InputOp → Input
  | [] => inp
  | op :: rest => (inp.applyOp op).applyOps rest

/-- Cursor invariant of the Input Buffer data model: the cursor is a
valid scalar index into the content, allowing the one-past-the-end
position. -/
def Input.Wf (inp : Input) : Prop :=
  inp.cursor ≤ inp.content.length

instance (inp : Input) : Decidable inp.Wf := by
  unfold Input.Wf; infer_instance

theorem length_dropWhile_le' {α : Type} (p : α → Bool) (l : List α) :
    (l.dropWhile p).length ≤ l.length := by
  induction l with
  | nil => simp
  | cons a l ih =>
    by_cases h : p a <;> simp [List.dropWhile_cons, h] <;> omega

theorem Input.applyOp_wf (inp : Input) (op : InputOp) (h : inp.Wf) :
    (inp.applyOp op).Wf := by
  rcases op with c | _ | _ | _ | _ | _ | _ | _ | _ <;>
    simp only [Input.Wf, Input.applyOp, Input.insert, Input.deleteLeft,
      Input.deleteRight, Input.moveLeft, Input.moveRight, Input.moveToStart,
      Input.moveToEnd, Input.moveWordLeft, Input.moveWordRight] at h ⊢
  · simp only [List.length_append, List.length_take, List.length_cons,
      List.length_drop]
    omega
  · split
    · exact h
    · simp only [List.length_append, List.length_take, List.length_drop]
      omega
  · split
    · exact h
    · simp only [List.length_append, List.length_take, List.length_drop]
      omega
  · omega
  · omega
  · omega
  · omega
  · calc ((((inp.content.take inp.cursor).reverse.dropWhile
          (fun c => c.isWhitespace)).dropWhile
          (fun c => ¬ c.isWhitespace)).length)
        ≤ ((inp.content.take inp.cursor).reverse.dropWhile
            (fun c => c.isWhitespace)).length := length_dropWhile_le' _ _
      _ ≤ (inp.content.take inp.cursor).reverse.length :=
            length_dropWhile_le' _ _
      _ ≤ inp.content.length := by
            simp only [List.length_reverse, List.length_take]; omega
  · simp only [List.length_drop]
    omega

theorem Input.applyOps_wf (inp : Input) (ops : List InputOp) (h : inp.Wf) :
    (inp.applyOps ops).Wf := by
  induction ops generalizing inp with
  | nil => exact h
  | cons op rest ih => exact ih _ (inp.applyOp_wf op h)

/-- Rendering window over a list, as consumed by the renderer under src:
the visible sub-sequence, the index of the highlighted entry within it,
and whether the window touches the start or the end of the full list. -/
structure Page (α : Type) where
  content : List α
  selection : Nat
  first : Bool
  last : Bool
  deriving DecidableEq

/-- Modelled from the spec: paginate(total_len, page_size, cursor)
computes a window of length min(page_size, total_len) containing the
cursor, preferring to keep the cursor centered when the full list exceeds
one page and clamping the window at both ends of the list; first is true
iff the window starts at index 0 and last is true iff the window ends at
index total_len - 1 (section 4.3). The pagination module is not under
src; the window is represented by the list of selected indices. -/
def paginate (total_len page_size cursor : Nat) : Page Nat :=
  if total_len ≤ page_size then
    { content := List.range total_len
      selection := cursor
      first := true
      last := true }
  else
    { content :=
        ((List.range total_len).drop
            (min (cursor - page_size / 2) (total_len - page_size))).take
          page_size
      selection := cursor - min (cursor - page_size / 2) (total_len - page_size)
      first := decide (min (cursor - page_size / 2) (total_len - page_size) = 0)
      last := decide
        (min (cursor - page_size / 2) (total_len - page_size) + page_size =
          total_len) }

/-- Correctness property of one paginate result: the window is a
contiguous slice of the index list of length min(page_size, total_len)
that contains the cursor and stays inside the list, and the first and
last flags hold exactly at the two ends. -/
def PaginateOk (total_len page_size cursor : Nat) : Prop :=
  (paginate total_len page_size cursor).content.length =
      min page_size total_len ∧
  cursor ∈ (paginate total_len page_size cursor).content ∧
  ∃ start,
    (paginate total_len page_size cursor).content =
        ((List.range total_len).drop start).take (min page_size total_len) ∧
    start ≤ cursor ∧
    cursor < start + min page_size total_len ∧
    start + min page_size total_len ≤ total_len ∧
    ((paginate total_len page_size cursor).first = true ↔ start = 0) ∧
    ((paginate total_len page_size cursor).last = true ↔
        start + min page_size total_len = total_len)

theorem mem_take_drop_range (total start L k : Nat) (h1 : start ≤ k)
    (h2 : k < start + L) (h3 : start + L ≤ total) :
    k ∈ ((List.range total).drop start).take L := by
  rw [List.mem_iff_getElem]
  have hlen : (((List.range total).drop start).take L).length = L := by
    simp only [List.length_take, List.length_drop, List.length_range]
    omega
  refine ⟨k - start, by omega, ?_⟩
  rw [List.getElem_take, List.getElem_drop, List.getElem_range]
  omega

/-- Claim C4: for total_len at least 1, page_size at least 1 and
cursor < total_len, paginate is a pure function returning a window of
length min(page_size, total_len) that contains the cursor and never runs
past either end of the list, with first true iff the window starts at
index 0 and last true iff the window ends at index total_len - 1; in
particular paginate 12 5 0 yields the length-5 window starting at index 0
with first true, and paginate 12 5 11 yields the window ending at index
11 with last true. -/
theorem paginate_window_correct (total_len page_size cursor : Nat)
    (h1 : 1 ≤ total_len) (h2 : 1 ≤ page_size) (h3 : cursor < total_len) :
    PaginateOk total_len page_size cursor ∧
    paginate 12 5 0 = ⟨[0, 1, 2, 3, 4], 0, true, false⟩ ∧
    paginate 12 5 11 = ⟨[7, 8, 9, 10, 11], 4, false, true⟩ := by
  refine ⟨?_, by decide, by decide⟩
  unfold PaginateOk paginate
  by_cases h : total_len ≤ page_size
  · rw [if_pos h]
    have hmin : min page_size total_len = total_len := Nat.min_eq_right h
    refine ⟨by simp [hmin], List.mem_range.mpr h3, 0, ?_, by omega, by omega,
      by omega, by simp, by simp [hmin]⟩
    rw [hmin, List.drop_zero]
    exact (List.take_of_length_le (by simp)).symm
  · rw [if_neg h]
    have hpt : page_size < total_len := by omega
    have hmin : min page_size total_len = page_size :=
      Nat.min_eq_left (le_of_lt hpt)
    have hs2 : min (cursor - page_size / 2) (total_len - page_size) ≤ cursor := by
      omega
    have hcur : cursor <
        min (cursor - page_size / 2) (total_len - page_size) + page_size := by
      omega
    refine ⟨?_, ?_,
      min (cursor - page_size / 2) (total_len - page_size), ?_, hs2,
      by omega, by omega, ?_, ?_⟩
    · simp only [List.length_take, List.length_drop, List.length_range, hmin]
      omega
    · exact mem_take_drop_range _ _ _ _ hs2 hcur (by omega)
    · rw [hmin]
    · simp only [decide_eq_true_eq]
    · rw [hmin]
      simp only [decide_eq_true_eq]

/-- Witness for claim C4 at the concrete page of the testable-properties
section. -/
theorem paginate_window_correct_witness : PaginateOk 12 5 11 :=
  (paginate_window_correct 12 5 11 (by decide) (by decide) (by decide)).1

/-- Colors used by the renderer under src (crossterm color names). -/
inductive Color where
  | red
  | green
  | cyan
  | grey
  | black
  | darkGrey
  | reset
  deriving DecidableEq

/-- Text styles used by the renderer under src. -/
inductive Style where
  | bold
  deriving DecidableEq

/-- One command sent to the terminal backend (the backend capability set
of section 6), recorded in a trace instead of being performed. -/
inductive TermCmd where
  | setFg (c : Color)
  | resetFg
  | setBg (c : Color)
  | resetBg
  | setStyle (s : Style)
  | resetStyle
  | write (s : List Char)
  | cursorUp
  | cursorHorizontalReset
  | clearCurrentLine
  deriving DecidableEq

/-- Styled-token printing primitive of the renderer (renderer.rs, Token):
a content string plus optional foreground color, background color and
style. -/
structure Token where
  content : List Char
  fg : Option Color := none
  bg : Option Color := none
  style : Option Style := none
  deriving DecidableEq

/-- Trace of Token::print (renderer.rs): nothing when the content is
empty; otherwise the optional color and style setters, the content write,
and the matching resets. -/
def Token.print (t : Token) : List TermCmd :=
  if t.content.isEmpty then []
  else
    (match t.fg with | some c => [TermCmd.setFg c] | none => []) ++
    (match t.bg with | some c => [TermCmd.setBg c] | none => []) ++
    (match t.style with | some s => [TermCmd.setStyle s] | none => []) ++
    [TermCmd.write t.content] ++
    (match t.fg with | some _ => [TermCmd.resetFg] | none => []) ++
    (match t.bg with | some _ => [TermCmd.resetBg] | none => []) ++
    (match t.style with | some _ => [TermCmd.resetStyle] | none => [])

/-- Trace of print_tokens (renderer.rs): each token printed in order. -/
def printTokens (ts : List Token) : List TermCmd :=
  (ts.map Token.print).flatten

/-- Upper bound of the 64-bit usize counter holding cur_line. -/
def USIZE_MAX : Nat := 2 ^ 64 - 1

/-- Saturating increment, mirroring saturating_add(1) on usize
(renderer.rs, new_line). -/
def satInc (n : Nat) : Nat := min (n + 1) USIZE_MAX

/-- Observable renderer state: the cur_line counter (a usize in the
source) and the trace of commands sent to the terminal. -/
structure RState where
  curLine : Nat
  out : List TermCmd
  deriving DecidableEq

/-- Appending raw commands to the trace without touching cur_line. -/
def RState.emit (s : RState) (cmds : List TermCmd) : RState :=
  { s with out := s.out ++ cmds }

/-- Trace of new_line (renderer.rs): horizontal reset, a newline write,
and a saturating increment of cur_line. -/
def RState.newLine (s : RState) : RState :=
  { curLine := satInc s.curLine
    out := s.out ++ [TermCmd.cursorHorizontalReset, TermCmd.write ['\n']] }

/-- Commands produced by the clearing loop of reset_prompt (renderer.rs):
one cursor-up, horizontal-reset, clear-line triple per counted line. -/
def resetLoop : Nat → List TermCmd
  | 0 => []
  | n + 1 =>
      TermCmd.cursorUp :: TermCmd.cursorHorizontalReset ::
        TermCmd.clearCurrentLine :: resetLoop n

/-- Trace of reset_prompt (renderer.rs): run the clearing loop cur_line
times, then zero cur_line. -/
def RState.resetPrompt (s : RState) : RState :=
  { curLine := 0, out := s.out ++ resetLoop s.curLine }

/-- Trace of print_error_message (renderer.rs): a red token with a
number-sign prefix, followed by one new line. -/
def RState.printErrorMessage (s : RState) (message : List Char) : RState :=
  (s.emit (Token.print
    { content := '#' :: ' ' :: message, fg := some Color.red })).newLine

/-- Trace of print_prompt_answer (renderer.rs): the green question-mark
prefix, the prompt, and the cyan answer, followed by one new line. -/
def RState.printPromptAnswer (s : RState) (prompt answer : List Char) :
    RState :=
  (s.emit (printTokens
    [ { content := ['?', ' '], fg := some Color.green }
    , { content := prompt }
    , { content := ' ' :: answer, fg := some Color.cyan } ])).newLine

/-- Trace of print_prompt (renderer.rs): prefix, prompt, the optional
parenthesised default, the optional non-empty bold content, then one new
line. -/
def RState.printPrompt (s : RState) (prompt : List Char)
    (dflt : Option (List Char)) (content : Option (List Char)) : RState :=
  let s1 := s.emit (Token.print
    { content := ['?', ' '], fg := some Color.green })
  let s2 := s1.emit (Token.print { content := prompt })
  let s3 := match dflt with
    | some d => s2.emit (Token.print { content := ' ' :: '(' :: (d ++ [')']) })
    | none => s2
  let s4 := match content with
    | some c =>
        if c.isEmpty then s3
        else s3.emit (Token.print { content := ' ' :: c, style := some .bold })
    | none => s3
  s4.newLine

/-- Trace of print_prompt_input (renderer.rs): prefix, prompt, optional
default, then the three slices of the input buffer with the at-cursor
slice highlighted (grey background, black foreground) and padded to a
space when empty, then one new line. -/
def RState.printPromptInput (s : RState) (prompt : List Char)
    (dflt : Option (List Char)) (content : Input) : RState :=
  let s1 := s.emit (Token.print
    { content := ['?', ' '], fg := some Color.green })
  let s2 := s1.emit (Token.print { content := prompt })
  let s3 := match dflt with
    | some d => s2.emit (Token.print { content := ' ' :: '(' :: (d ++ [')']) })
    | none => s2
  let parts := content.split
  let atC := if parts.2.1.isEmpty then parts.2.1 ++ [' '] else parts.2.1
  let s4 := s3.emit (printTokens
    [ { content := [' '] }
    , { content := parts.1 }
    , { content := atC, fg := some Color.black, bg := some Color.grey }
    , { content := parts.2.2 } ])
  s4.newLine

/-- Trace of print_help (renderer.rs): the bracketed cyan help message
followed by one new line. -/
def RState.printHelp (s : RState) (message : List Char) : RState :=
  (s.emit (Token.print
    { content := '[' :: (message ++ [']']), fg := some Color.cyan })).newLine

/-- Trace of print_option (renderer.rs): the cyan cursor row or the plain
row, followed by one new line. -/
def RState.printOption (s : RState) (cursor : Bool) (content : List Char) :
    RState :=
  (s.emit (Token.print
    (match cursor with
      | true => { content := '>' :: ' ' :: content, fg := some Color.cyan }
      | false => { content := ' ' :: ' ' :: content }))).newLine

/-- Marker and color chosen by print_options for the row at visible index
idx (renderer.rs): the top continuation marker on row 0 of a non-first
page, the bottom continuation marker on the final row of a non-last page,
the cyan cursor marker on the selected row, and a blank marker
otherwise. -/
def optionMarker (idx length selection : Nat) (first last : Bool) :
    List Char × Color :=
  if idx = 0 ∧ first = false then (['^', ' '], Color.reset)
  else if idx + 1 = length ∧ last = false then (['v', ' '], Color.reset)
  else if idx = selection then ([' ', '>'], Color.cyan)
  else ([' ', ' '], Color.reset)

/-- Loop body of print_options (renderer.rs): each visible row prints its
marker, a space and the option text with the chosen color, followed by
one new line. -/
def RState.printOptionsLoop (length selection : Nat) (first last : Bool) :
    Nat → List (List Char) → RState → RState
  | _, [], s => s
  | idx, o :: rest, s =>
      RState.printOptionsLoop length selection first last (idx + 1) rest
        ((s.emit (Token.print
          { content := (optionMarker idx length selection first last).1 ++
              ' ' :: o
            fg := some (optionMarker idx length selection first last).2
          })).newLine)

/-- Trace of print_options (renderer.rs): the loop over the enumerated
page content. -/
def RState.printOptions (s : RState) (page : Page (List Char)) : RState :=
  RState.printOptionsLoop page.content.length page.selection page.first
    page.last 0 page.content s

/-- Trace of print_multi_option (renderer.rs): cursor marker, checkbox
marker and option text, followed by one new line. -/
def RState.printMultiOption (s : RState) (cursor checked : Bool)
    (content : List Char) : RState :=
  (s.emit (printTokens
    [ (match cursor with
        | true => { content := ['>', ' '], fg := some Color.cyan }
        | false => { content := [' ', ' '] })
    , (match checked with
        | true => { content := ['[', 'x', ']', ' '], fg := some Color.green }
        | false => { content := ['[', ' ', ']', ' '] })
    , { content := content } ])).newLine

/-- Number of newline characters occurring in the writes of one
command. -/
def cmdNl : TermCmd → Nat
  | .write s => s.count '\n'
  | _ => 0

/-- Number of newline characters emitted by a command trace. -/
def countNl (cmds : List TermCmd) : Nat :=
  (cmds.map cmdNl).sum

theorem resetLoop_count_up (n : Nat) :
    (resetLoop n).count TermCmd.cursorUp = n := by
  induction n with
  | zero => rfl
  | succ n ih => simp [resetLoop, List.count_cons, ih]

theorem resetLoop_count_clear (n : Nat) :
    (resetLoop n).count TermCmd.clearCurrentLine = n := by
  induction n with
  | zero => rfl
  | succ n ih => simp [resetLoop, List.count_cons, ih]

theorem resetLoop_length (n : Nat) : (resetLoop n).length = 3 * n := by
  induction n with
  | zero => rfl
  | succ n ih => simp [resetLoop, ih]; omega

/-- Claim C5: reset_prompt only appends to the trace, the appended block
performs exactly cur_line clearing iterations (it contains exactly
cur_line cursor-up commands, exactly cur_line clear-line commands, and
three commands per iteration), and cur_line equals 0 immediately after
every reset_prompt call. -/
theorem resetPrompt_clears_exactly (s : RState) :
    s.resetPrompt.curLine = 0 ∧
    s.resetPrompt.out.take s.out.length = s.out ∧
    (s.resetPrompt.out.drop s.out.length).count TermCmd.cursorUp =
        s.curLine ∧
    (s.resetPrompt.out.drop s.out.length).count TermCmd.clearCurrentLine =
        s.curLine ∧
    (s.resetPrompt.out.drop s.out.length).length = 3 * s.curLine := by
  refine ⟨rfl, ?_, ?_, ?_, ?_⟩ <;>
    simp [RState.resetPrompt, List.take_left, List.drop_left,
      resetLoop_count_up, resetLoop_count_clear, resetLoop_length]

theorem countNl_append (a b : List TermCmd) :
    countNl (a ++ b) = countNl a + countNl b := by
  simp [countNl]

theorem tokenPrint_nl (t : Token) :
    countNl t.print = t.content.count '\n' := by
  unfold Token.print
  split
  · next h =>
      rw [List.isEmpty_iff] at h
      simp [h, countNl]
  · rcases t.fg with _ | c1 <;> rcases t.bg with _ | c2 <;>
      rcases t.style with _ | st <;>
      simp [countNl, cmdNl]

theorem printTokens_nl (ts : List Token) :
    countNl (printTokens ts) =
      (ts.map (fun t => t.content.count '\n')).sum := by
  induction ts with
  | nil => rfl
  | cons t rest ih =>
      simp only [printTokens, List.map_cons, List.flatten_cons] at *
      rw [countNl_append, tokenPrint_nl, ih, List.sum_cons]

theorem emit_curLine (s : RState) (cmds : List TermCmd) :
    (s.emit cmds).curLine = s.curLine := rfl

theorem emit_nl (s : RState) (cmds : List TermCmd) :
    countNl (s.emit cmds).out = countNl s.out + countNl cmds :=
  countNl_append _ _

theorem newLine_curLine (s : RState) (h : s.curLine < USIZE_MAX) :
    s.newLine.curLine = s.curLine + 1 := by
  simp only [RState.newLine, satInc]
  omega

theorem newLine_nl (s : RState) :
    countNl s.newLine.out = countNl s.out + 1 := by
  simp [RState.newLine, countNl_append, countNl, cmdNl]

theorem step_curLine (s : RState) (cmds : List TermCmd)
    (h : s.curLine < USIZE_MAX) :
    ((s.emit cmds).newLine).curLine = s.curLine + 1 := by
  rw [newLine_curLine, emit_curLine]
  rwa [emit_curLine]

theorem step_nl (s : RState) (cmds : List TermCmd) :
    countNl ((s.emit cmds).newLine).out =
      countNl s.out + countNl cmds + 1 := by
  rw [newLine_nl, emit_nl]

theorem optionMarker_nl (idx length selection : Nat) (first last : Bool) :
    ((optionMarker idx length selection first last).1).count '\n' = 0 := by
  unfold optionMarker
  split
  · rfl
  · split
    · rfl
    · split <;> rfl

/-- One renderer operation performed on state s yielding s2 increments
cur_line by exactly k and emits exactly k newline characters. -/
def PrintStep (k : Nat) (s s2 : RState) : Prop :=
  s2.curLine = s.curLine + k ∧ countNl s2.out = countNl s.out + k

theorem printOptionsLoop_bookkeeping (length selection : Nat)
    (first last : Bool) (texts : List (List Char)) :
    ∀ (idx : Nat) (s : RState), (∀ o ∈ texts, o.count '\n' = 0) →
      s.curLine + texts.length ≤ USIZE_MAX →
      PrintStep texts.length s
        (RState.printOptionsLoop length selection first last idx texts s) := by
  induction texts with
  | nil =>
      intro idx s h hb
      exact ⟨rfl, rfl⟩
  | cons o rest ih =>
      intro idx s h hb
      simp only [RState.printOptionsLoop]
      have hlt : s.curLine < USIZE_MAX := by
        simp only [List.length_cons] at hb
        omega
      set s1 := (s.emit (Token.print
        { content := (optionMarker idx length selection first last).1 ++
            ' ' :: o
          fg := some (optionMarker idx length selection first last).2
        })).newLine with hs1
      have h1 : s1.curLine = s.curLine + 1 := step_curLine s _ hlt
      have h2 : countNl s1.out = countNl s.out + 1 := by
        rw [hs1, step_nl, tokenPrint_nl]
        have ho := h o (by simp)
        have hne : ('\n' : Char) ≠ ' ' := by decide
        simp [List.count_append, optionMarker_nl,
          List.count_cons_of_ne hne, ho]
      obtain ⟨ha, hb2⟩ := ih (idx + 1) s1
        (fun x hx => h x (by simp [hx]))
        (by simp only [List.length_cons] at hb; omega)
      refine ⟨?_, ?_⟩
      · rw [ha, h1, List.length_cons]
        omega
      · rw [hb2, h2, List.length_cons]
        omega

theorem nl_lit_qmark : (['?', ' '] : List Char).count '\n' = 0 := by decide

theorem nl_lit_rparen : ([')'] : List Char).count '\n' = 0 := by decide

theorem nl_lit_rbracket : ([']'] : List Char).count '\n' = 0 := by decide

theorem nl_lit_space : ([' '] : List Char).count '\n' = 0 := by decide

theorem nl_lit_cursor : (['>', ' '] : List Char).count '\n' = 0 := by decide

theorem nl_lit_blank : ([' ', ' '] : List Char).count '\n' = 0 := by decide

theorem nl_lit_checked :
    (['[', 'x', ']', ' '] : List Char).count '\n' = 0 := by decide

theorem nl_lit_unchecked :
    (['[', ' ', ']', ' '] : List Char).count '\n' = 0 := by decide

theorem split_nl (inp : Input) (hi : inp.content.count '\n' = 0) :
    inp.split.1.count '\n' = 0 ∧ inp.split.2.1.count '\n' = 0 ∧
    inp.split.2.2.count '\n' = 0 := by
  have hnm : ('\n' : Char) ∉ inp.content := List.not_mem_of_count_eq_zero hi
  refine ⟨?_, ?_, ?_⟩
  · show (inp.content.take inp.cursor).count '\n' = 0
    have := (List.take_sublist inp.cursor inp.content).count_le '\n'
    omega
  · show (if inp.cursor < inp.content.length then
        [inp.content.getD inp.cursor ' '] else [' ']).count '\n' = 0
    split
    · next hlt =>
        rw [List.getD_eq_getElem?_getD, List.getElem?_eq_getElem hlt,
          Option.getD_some]
        refine List.count_eq_zero_of_not_mem ?_
        intro hmem
        rw [List.mem_singleton] at hmem
        exact hnm (hmem ▸ List.getElem_mem hlt)
    · decide
  · show (inp.content.drop (inp.cursor + 1)).count '\n' = 0
    have := (List.drop_sublist (inp.cursor + 1) inp.content).count_le '\n'
    omega

theorem printErrorMessage_step (s : RState) (message : List Char)
    (hm : message.count '\n' = 0) (hcl : s.curLine < USIZE_MAX) :
    PrintStep 1 s (s.printErrorMessage message) := by
  have hne1 : ('\n' : Char) ≠ '#' := by decide
  have hne2 : ('\n' : Char) ≠ ' ' := by decide
  constructor
  · exact step_curLine s _ hcl
  · simp only [RState.printErrorMessage, step_nl, tokenPrint_nl,
      List.count_cons_of_ne hne1, List.count_cons_of_ne hne2, hm]

theorem printPromptAnswer_step (s : RState) (prompt answer : List Char)
    (hp : prompt.count '\n' = 0) (ha : answer.count '\n' = 0)
    (hcl : s.curLine < USIZE_MAX) :
    PrintStep 1 s (s.printPromptAnswer prompt answer) := by
  have hne2 : ('\n' : Char) ≠ ' ' := by decide
  constructor
  · exact step_curLine s _ hcl
  · simp only [RState.printPromptAnswer, step_nl, printTokens_nl,
      List.map_cons, List.map_nil, List.sum_cons, List.sum_nil,
      List.count_cons_of_ne hne2, hp, ha, nl_lit_qmark, List.count_nil] <;>
    omega

theorem printPrompt_step (s : RState) (prompt : List Char)
    (dflt content : Option (List Char))
    (hp : prompt.count '\n' = 0)
    (hd : ∀ d ∈ dflt, d.count '\n' = 0)
    (hc : ∀ c ∈ content, c.count '\n' = 0)
    (hcl : s.curLine < USIZE_MAX) :
    PrintStep 1 s (s.printPrompt prompt dflt content) := by
  have hne2 : ('\n' : Char) ≠ ' ' := by decide
  have hne3 : ('\n' : Char) ≠ '(' := by decide
  rcases dflt with _ | d <;> rcases content with _ | c
  · constructor
    · exact step_curLine (s.emit _) _ hcl
    · simp only [RState.printPrompt, step_nl, emit_nl, tokenPrint_nl,
        List.count_cons_of_ne hne2, hp, nl_lit_qmark, List.count_nil] <;>
      omega
  · constructor
    · by_cases hce : c.isEmpty <;>
        simp [RState.printPrompt, hce, RState.emit, RState.newLine, satInc] <;>
        omega
    · by_cases hce : c.isEmpty <;>
        simp [RState.printPrompt, hce, step_nl, emit_nl, tokenPrint_nl,
          List.count_cons_of_ne hne2, hp, hc c rfl, nl_lit_qmark] <;>
        omega
  · constructor
    · exact step_curLine ((s.emit _).emit _) _ hcl
    · simp only [RState.printPrompt, step_nl, emit_nl, tokenPrint_nl,
        List.count_cons_of_ne hne2, List.count_cons_of_ne hne3,
        List.count_append, hp, hd d rfl, nl_lit_qmark, nl_lit_rparen,
        List.count_nil] <;>
      omega
  · constructor
    · by_cases hce : c.isEmpty <;>
        simp [RState.printPrompt, hce, RState.emit, RState.newLine, satInc] <;>
        omega
    · by_cases hce : c.isEmpty <;>
        simp [RState.printPrompt, hce, step_nl, emit_nl, tokenPrint_nl,
          List.count_cons_of_ne hne2, List.count_cons_of_ne hne3,
          List.count_append, hp, hd d rfl, hc c rfl, nl_lit_qmark,
          nl_lit_rparen] <;>
        omega

theorem printPromptInput_step (s : RState) (prompt : List Char)
    (dflt : Option (List Char)) (inp : Input)
    (hp : prompt.count '\n' = 0)
    (hd : ∀ d ∈ dflt, d.count '\n' = 0)
    (hi : inp.content.count '\n' = 0)
    (hcl : s.curLine < USIZE_MAX) :
    PrintStep 1 s (s.printPromptInput prompt dflt inp) := by
  have hne2 : ('\n' : Char) ≠ ' ' := by decide
  have hne3 : ('\n' : Char) ≠ '(' := by decide
  obtain ⟨hs1, hs2, hs3⟩ := split_nl inp hi
  have hat : (if inp.split.2.1.isEmpty then inp.split.2.1 ++ [' ']
      else inp.split.2.1).count '\n' = 0 := by
    split
    · rw [List.count_append, hs2, nl_lit_space]
    · exact hs2
  rcases dflt with _ | d
  · constructor
    · exact step_curLine ((s.emit _).emit _) _ hcl
    · simp only [RState.printPromptInput, step_nl, emit_nl, printTokens_nl,
        List.map_cons, List.map_nil, List.sum_cons, List.sum_nil,
        tokenPrint_nl, List.count_cons_of_ne hne2, hp, hs1, hs3, hat,
        nl_lit_qmark, nl_lit_space, List.count_nil] <;>
      omega
  · constructor
    · exact step_curLine (((s.emit _).emit _).emit _) _ hcl
    · simp only [RState.printPromptInput, step_nl, emit_nl, printTokens_nl,
        List.map_cons, List.map_nil, List.sum_cons, List.sum_nil,
        tokenPrint_nl, List.count_cons_of_ne hne2, List.count_cons_of_ne hne3,
        List.count_append, hp, hd d rfl, hs1, hs3, hat, nl_lit_qmark,
        nl_lit_space, nl_lit_rparen, List.count_nil] <;>
      omega

theorem printHelp_step (s : RState) (message : List Char)
    (hm : message.count '\n' = 0) (hcl : s.curLine < USIZE_MAX) :
    PrintStep 1 s (s.printHelp message) := by
  have hne1 : ('\n' : Char) ≠ '[' := by decide
  constructor
  · exact step_curLine s _ hcl
  · simp only [RState.printHelp, step_nl, tokenPrint_nl,
      List.count_cons_of_ne hne1, List.count_append, hm, nl_lit_rbracket,
      List.count_nil] <;>
    omega

theorem printOption_step (s : RState) (cursor : Bool) (content : List Char)
    (hc : content.count '\n' = 0) (hcl : s.curLine < USIZE_MAX) :
    PrintStep 1 s (s.printOption cursor content) := by
  have hne1 : ('\n' : Char) ≠ '>' := by decide
  have hne2 : ('\n' : Char) ≠ ' ' := by decide
  constructor
  · rcases cursor <;> exact step_curLine s _ hcl
  · rcases cursor <;>
      simp only [RState.printOption, step_nl, tokenPrint_nl,
        List.count_cons_of_ne hne1, List.count_cons_of_ne hne2, hc]

theorem printMultiOption_step (s : RState) (cursor checked : Bool)
    (content : List Char) (hc : content.count '\n' = 0)
    (hcl : s.curLine < USIZE_MAX) :
    PrintStep 1 s (s.printMultiOption cursor checked content) := by
  constructor
  · rcases cursor <;> rcases checked <;> exact step_curLine s _ hcl
  · rcases cursor <;> rcases checked <;>
      simp only [RState.printMultiOption, step_nl, printTokens_nl,
        List.map_cons, List.map_nil, List.sum_cons, List.sum_nil, hc,
        nl_lit_cursor, nl_lit_blank, nl_lit_checked, nl_lit_unchecked] <;>
      omega

/-- Claim C6 (amended): every print operation increments cur_line by
exactly the number of newline characters it emits — 1 for each of
print_error_message, print_prompt_answer, print_prompt,
print_prompt_input, print_help, print_option and print_multi_option, and
the page content length for print_options — for every input whose printed
strings contain no newline characters of their own, and every starting
state whose cur_line does not saturate (new_line uses a saturating
increment capped at USIZE_MAX). -/
theorem print_ops_bookkeeping (s : RState)
    (message prompt answer helpMsg optText multiText : List Char)
    (dflt content : Option (List Char)) (inp : Input)
    (page : Page (List Char)) (cursor checked : Bool)
    (hm : message.count '\n' = 0) (hp : prompt.count '\n' = 0)
    (ha : answer.count '\n' = 0)
    (hd : ∀ d ∈ dflt, d.count '\n' = 0)
    (hc : ∀ c ∈ content, c.count '\n' = 0)
    (hi : inp.content.count '\n' = 0)
    (hh : helpMsg.count '\n' = 0) (ho : optText.count '\n' = 0)
    (hmu : multiText.count '\n' = 0)
    (hpg : ∀ o ∈ page.content, o.count '\n' = 0)
    (hcl : s.curLine < USIZE_MAX)
    (hclp : s.curLine + page.content.length ≤ USIZE_MAX) :
    PrintStep 1 s (s.printErrorMessage message) ∧
    PrintStep 1 s (s.printPromptAnswer prompt answer) ∧
    PrintStep 1 s (s.printPrompt prompt dflt content) ∧
    PrintStep 1 s (s.printPromptInput prompt dflt inp) ∧
    PrintStep 1 s (s.printHelp helpMsg) ∧
    PrintStep 1 s (s.printOption cursor optText) ∧
    PrintStep 1 s (s.printMultiOption cursor checked multiText) ∧
    PrintStep page.content.length s (s.printOptions page) :=
  ⟨printErrorMessage_step s message hm hcl,
   printPromptAnswer_step s prompt answer hp ha hcl,
   printPrompt_step s prompt dflt content hp hd hc hcl,
   printPromptInput_step s prompt dflt inp hp hd hi hcl,
   printHelp_step s helpMsg hh hcl,
   printOption_step s cursor optText ho hcl,
   printMultiOption_step s cursor checked multiText hmu hcl,
   printOptionsLoop_bookkeeping page.content.length page.selection
     page.first page.last page.content 0 s hpg hclp⟩

/-- Witness for claim C6 at concrete inputs: a fresh renderer state, one
short text per operation and a two-row page. -/
theorem print_ops_bookkeeping_witness :
    PrintStep 1 ⟨0, []⟩ (RState.printErrorMessage ⟨0, []⟩ ['e']) ∧
    PrintStep 1 ⟨0, []⟩ (RState.printPromptAnswer ⟨0, []⟩ ['p'] ['a']) ∧
    PrintStep 1 ⟨0, []⟩ (RState.printPrompt ⟨0, []⟩ ['p'] none none) ∧
    PrintStep 1 ⟨0, []⟩
      (RState.printPromptInput ⟨0, []⟩ ['p'] none ⟨['a', 'b'], 1⟩) ∧
    PrintStep 1 ⟨0, []⟩ (RState.printHelp ⟨0, []⟩ ['h']) ∧
    PrintStep 1 ⟨0, []⟩ (RState.printOption ⟨0, []⟩ true ['o']) ∧
    PrintStep 1 ⟨0, []⟩ (RState.printMultiOption ⟨0, []⟩ true false ['m']) ∧
    PrintStep 2 ⟨0, []⟩
      (RState.printOptions ⟨0, []⟩ ⟨[['x'], ['y']], 0, true, true⟩) :=
  print_ops_bookkeeping ⟨0, []⟩ ['e'] ['p'] ['a'] ['h'] ['o'] ['m']
    none none ⟨['a', 'b'], 1⟩ ⟨[['x'], ['y']], 0, true, true⟩ true false
    (by decide) (by decide) (by decide) (by simp) (by simp) (by decide)
    (by decide) (by decide) (by decide) (by decide) (by decide) (by decide)

/-- Claim C6 counterexample: the literal claim fails for two reasons. At
cur_line = USIZE_MAX the saturating increment of new_line leaves cur_line
unchanged although one newline is emitted, and a message that itself
contains a newline character makes print_error_message emit two newline
characters while incrementing cur_line by only 1. -/
theorem print_ops_bookkeeping_cex :
    ¬ (RState.printErrorMessage ⟨USIZE_MAX, []⟩ ['x']).curLine =
        USIZE_MAX + 1 ∧
    countNl (RState.printErrorMessage ⟨USIZE_MAX, []⟩ ['x']).out = 1 ∧
    (RState.printErrorMessage ⟨0, []⟩ ['a', '\n', 'b']).curLine = 1 ∧
    countNl (RState.printErrorMessage ⟨0, []⟩ ['a', '\n', 'b']).out = 2 := by
  refine ⟨?_, by decide, by decide, by decide⟩
  simp only [RState.printErrorMessage, RState.newLine, RState.emit, satInc,
    USIZE_MAX]
  omega

/-- Claim C10 (amended): in print_options the continuation markers take
precedence over the selection marker: row 0 is rendered with the top
continuation marker and no highlight color whenever the page is not
first — regardless of the selection — and the final row with the bottom
continuation marker whenever the page is not last, except when that row
is also row 0 of a non-first page, where the top marker takes precedence;
a selected row that is not a continuation row gets the cyan cursor
marker. -/
theorem printOptions_marker_precedence :
    (∀ length selection last1,
      optionMarker 0 length selection false last1 =
        (['^', ' '], Color.reset)) ∧
    (∀ idx length selection first1, idx + 1 = length →
      (idx = 0 → first1 = true) →
      optionMarker idx length selection first1 false =
        (['v', ' '], Color.reset)) ∧
    (∀ idx length selection first1 last1, idx = selection →
      ¬ (idx = 0 ∧ first1 = false) → ¬ (idx + 1 = length ∧ last1 = false) →
      optionMarker idx length selection first1 last1 =
        ([' ', '>'], Color.cyan)) := by
  refine ⟨?_, ?_, ?_⟩
  · intro length selection last1
    simp [optionMarker]
  · intro idx length selection first1 hlen hfz
    have : ¬ (idx = 0 ∧ first1 = false) := by
      rintro ⟨h0, hf⟩
      rw [hfz h0] at hf
      exact Bool.noConfusion hf
    simp [optionMarker, this, hlen]
  · intro idx length selection first1 last1 hsel h1 h2
    subst hsel
    simp [optionMarker, h1, h2]

/-- Witness for claim C10 at concrete rows of a three-row page. -/
theorem printOptions_marker_precedence_witness :
    optionMarker 0 3 0 false true = (['^', ' '], Color.reset) ∧
    optionMarker 2 3 2 true false = (['v', ' '], Color.reset) ∧
    optionMarker 1 3 1 true true = ([' ', '>'], Color.cyan) :=
  ⟨printOptions_marker_precedence.1 3 0 true,
   printOptions_marker_precedence.2.1 2 3 2 true (by decide)
     (fun h => absurd h (by decide)),
   printOptions_marker_precedence.2.2 1 3 1 true true rfl (by decide)
     (by decide)⟩

/-- Claim C10 counterexample: on a single-row page that is neither first
nor last, the only row is the last visible row and page.last is false,
yet print_options renders it with the top continuation marker, not the
bottom one: the full trace for such a page writes the row with a leading
caret. -/
theorem printOptions_marker_cex :
    (optionMarker 0 1 0 false false).1 = ['^', ' '] ∧
    (optionMarker 0 1 0 false false).1 ≠ ['v', ' '] ∧
    (RState.printOptions ⟨0, []⟩ ⟨[['x']], 0, false, false⟩).out =
      [TermCmd.setFg Color.reset, TermCmd.write ['^', ' ', ' ', 'x'],
        TermCmd.resetFg, TermCmd.cursorHorizontalReset,
        TermCmd.write ['\n']] := by
  refine ⟨by decide, by decide, by decide⟩

/-- Configuration of the text prompt; the key-to-action mapping under src
ignores it entirely (the configuration module is not under src). -/
structure TextConfig

/-- Set of actions for a TextPrompt (text/action.rs under src): an action
on the value text input handler, or one of the suggestion-list actions. -/
inductive TextPromptAction where
  | valueInput (a : InputAction)
  | moveToSuggestionAbove
  | moveToSuggestionBelow
  | moveToSuggestionPageUp
  | moveToSuggestionPageDown
  | useCurrentSuggestion
  deriving DecidableEq

/-- Key-to-action mapping of the text prompt (text/action.rs under src):
Up and Down without modifiers, PageUp, PageDown and Tab map to the
suggestion actions; any other key falls through to the shared input
action mapping, wrapped in valueInput, and yields no action when that
mapping has none. -/
def TextPromptAction.fromKey (key : Key) (_config : TextConfig) :
    Option TextPromptAction :=
  match key with
  | .up ⟨false, false, false⟩ => some .moveToSuggestionAbove
  | .pageUp => some .moveToSuggestionPageUp
  | .down ⟨false, false, false⟩ => some .moveToSuggestionBelow
  | .pageDown => some .moveToSuggestionPageDown
  | .tab => some .useCurrentSuggestion
  | key =>
      match InputAction.fromKey key () with
      | some action => some (.valueInput action)
      | none => none

/-- The five navigation keys intercepted by the text prompt before the
shared text-editing mapping. -/
def isTextNavKey (key : Key) : Bool :=
  match key with
  | .up ⟨false, false, false⟩ => true
  | .pageUp => true
  | .down ⟨false, false, false⟩ => true
  | .pageDown => true
  | .tab => true
  | _ => false

theorem textFromKey_fallthrough (key : Key) (cfg : TextConfig)
    (hk : isTextNavKey key = false) :
    TextPromptAction.fromKey key cfg =
      (InputAction.fromKey key ()).map TextPromptAction.valueInput := by
  cases key with
  | escape => rfl
  | enter => rfl
  | tab => simp [isTextNavKey] at hk
  | backspace => rfl
  | delete m =>
      rcases m with ⟨s1, c1, a1⟩
      cases s1 <;> cases c1 <;> cases a1 <;> rfl
  | home => rfl
  | endKey => rfl
  | pageUp => simp [isTextNavKey] at hk
  | pageDown => simp [isTextNavKey] at hk
  | up m =>
      rcases m with ⟨s1, c1, a1⟩
      cases s1 <;> cases c1 <;> cases a1 <;>
        first | rfl | simp [isTextNavKey] at hk
  | down m =>
      rcases m with ⟨s1, c1, a1⟩
      cases s1 <;> cases c1 <;> cases a1 <;>
        first | rfl | simp [isTextNavKey] at hk
  | left m =>
      rcases m with ⟨s1, c1, a1⟩
      cases s1 <;> cases c1 <;> cases a1 <;> rfl
  | right m =>
      rcases m with ⟨s1, c1, a1⟩
      cases s1 <;> cases c1 <;> cases a1 <;> rfl
  | char c m =>
      rcases m with ⟨s1, c1, a1⟩
      cases s1 <;> cases c1 <;> cases a1 <;> rfl

/-- Claim C7: the text prompt action mapping is a pure total function
returning an optional action: Up and Down without modifiers, PageUp,
PageDown and Tab map to the five suggestion actions before the shared
text-editing mapping is consulted; every other key is delegated to the
shared input action mapping wrapped in valueInput; keys unmapped by both
yield no action. -/
theorem textPromptAction_fromKey_spec (cfg : TextConfig) :
    TextPromptAction.fromKey (Key.up KeyModifiers.NONE) cfg =
        some TextPromptAction.moveToSuggestionAbove ∧
    TextPromptAction.fromKey (Key.down KeyModifiers.NONE) cfg =
        some TextPromptAction.moveToSuggestionBelow ∧
    TextPromptAction.fromKey Key.pageUp cfg =
        some TextPromptAction.moveToSuggestionPageUp ∧
    TextPromptAction.fromKey Key.pageDown cfg =
        some TextPromptAction.moveToSuggestionPageDown ∧
    TextPromptAction.fromKey Key.tab cfg =
        some TextPromptAction.useCurrentSuggestion ∧
    (∀ key, isTextNavKey key = false →
      TextPromptAction.fromKey key cfg =
        (InputAction.fromKey key ()).map TextPromptAction.valueInput) ∧
    (∀ key, isTextNavKey key = false → InputAction.fromKey key () = none →
      TextPromptAction.fromKey key cfg = none) := by
  refine ⟨rfl, rfl, rfl, rfl, rfl, fun key hk => textFromKey_fallthrough key cfg hk, ?_⟩
  intro key hk hnone
  rw [textFromKey_fallthrough key cfg hk, hnone]
  rfl

/-- Witness for claim C7 at concrete keys: the Enter key is delegated to
the shared mapping as Submit, and the Home key likewise; an alt-modified
character key is unmapped by both layers. -/
theorem textPromptAction_fromKey_spec_witness :
    TextPromptAction.fromKey Key.enter TextConfig.mk =
      (InputAction.fromKey Key.enter ()).map TextPromptAction.valueInput ∧
    TextPromptAction.fromKey (Key.char 'a' ⟨false, false, true⟩)
      TextConfig.mk = none :=
  ⟨(textPromptAction_fromKey_spec TextConfig.mk).2.2.2.2.2.1 Key.enter
      (by decide),
   (textPromptAction_fromKey_spec TextConfig.mk).2.2.2.2.2.2
      (Key.char 'a' ⟨false, false, true⟩) (by decide) (by decide)⟩

/-- Claim C3: from any valid starting state, the cursor stays within
zero and the content length after every sequence of insert, delete_left,
delete_right and move operations; delete_left at cursor 0 and
delete_right at the end of the content are no-ops that change neither
content nor cursor; and pressing Backspace ten times on a four-character
buffer and then typing the words normal input yields exactly that
text. -/
theorem input_ops_invariant (inp : Input) (h : inp.Wf) :
    (∀ ops : List InputOp, (inp.applyOps ops).Wf) ∧
    (inp.cursor = 0 → inp.deleteLeft = inp) ∧
    (inp.cursor = inp.content.length → inp.deleteRight = inp) ∧
    Input.applyOps ⟨['a', 'n', 'o', 'r'], 4⟩
        (List.replicate 10 InputOp.deleteLeft ++
          ("normal input".toList.map InputOp.insert)) =
      ⟨"normal input".toList, 12⟩ := by
  refine ⟨fun ops => inp.applyOps_wf ops h, ?_, ?_, by decide⟩
  · intro h0
    simp [Input.deleteLeft, h0]
  · intro hlen
    simp [Input.deleteRight, hlen]

/-- Witness for claim C3 at concrete buffers. -/
theorem input_ops_invariant_witness :
    (Input.applyOps ⟨['a', 'b'], 2⟩ [InputOp.moveWordLeft]).Wf ∧
    Input.deleteLeft ⟨['a', 'b'], 0⟩ = ⟨['a', 'b'], 0⟩ ∧
    Input.deleteRight ⟨['a', 'b'], 2⟩ = ⟨['a', 'b'], 2⟩ :=
  ⟨(input_ops_invariant ⟨['a', 'b'], 2⟩ (by decide)).1 [InputOp.moveWordLeft],
   (input_ops_invariant ⟨['a', 'b'], 0⟩ (by decide)).2.1 rfl,
   (input_ops_invariant ⟨['a', 'b'], 2⟩ (by decide)).2.2.1 (by decide)⟩

/-- Claim C8: split returns three disjoint slices — the content before
the cursor, the single scalar at the cursor, and the content after —
where the middle slice is a placeholder space exactly when the cursor is
at end-of-content (so the rendered cursor cell is never empty), and
before plus the at-cursor scalar plus after reproduces the content when
the cursor is not at end-of-content. -/
theorem input_split_spec (inp : Input) (h : inp.Wf) :
    inp.split.1 = inp.content.take inp.cursor ∧
    inp.split.2.2 = inp.content.drop (inp.cursor + 1) ∧
    inp.split.2.1.length = 1 ∧
    inp.split.2.1.isEmpty = false ∧
    (inp.cursor = inp.content.length → inp.split.2.1 = [' ']) ∧
    (inp.cursor < inp.content.length →
      inp.split.1 ++ inp.split.2.1 ++ inp.split.2.2 = inp.content ∧
      inp.split.1.length = inp.cursor ∧
      inp.split.2.2.length = inp.content.length - (inp.cursor + 1)) := by
  refine ⟨rfl, rfl, ?_, ?_, ?_, ?_⟩
  · show (if inp.cursor < inp.content.length then
        [inp.content.getD inp.cursor ' '] else [' ']).length = 1
    split <;> rfl
  · show (if inp.cursor < inp.content.length then
        [inp.content.getD inp.cursor ' '] else [' ']).isEmpty = false
    split <;> rfl
  · intro he
    show (if inp.cursor < inp.content.length then
        [inp.content.getD inp.cursor ' '] else [' ']) = [' ']
    rw [if_neg]
    omega
  · intro hlt
    refine ⟨?_, ?_, ?_⟩
    · show inp.content.take inp.cursor ++
          (if inp.cursor < inp.content.length then
            [inp.content.getD inp.cursor ' '] else [' ']) ++
          inp.content.drop (inp.cursor + 1) = inp.content
      rw [if_pos hlt, List.getD_eq_getElem?_getD,
        List.getElem?_eq_getElem hlt, Option.getD_some]
      have htake : inp.content.take inp.cursor ++
          [inp.content[inp.cursor]] = inp.content.take (inp.cursor + 1) := by
        rw [List.take_succ, List.getElem?_eq_getElem hlt]
        rfl
      rw [htake, List.take_append_drop]
    · show (inp.content.take inp.cursor).length = inp.cursor
      rw [List.length_take]
      omega
    · show (inp.content.drop (inp.cursor + 1)).length =
          inp.content.length - (inp.cursor + 1)
      rw [List.length_drop]

/-- Witness for claim C8 at concrete buffers: a mid-content cursor and an
end-of-content cursor. -/
theorem input_split_spec_witness :
    (Input.split ⟨['a', 'b'], 1⟩).1 ++ (Input.split ⟨['a', 'b'], 1⟩).2.1 ++
        (Input.split ⟨['a', 'b'], 1⟩).2.2 = ['a', 'b'] ∧
    (Input.split ⟨['a', 'b'], 2⟩).2.1 = [' '] :=
  ⟨((input_split_spec ⟨['a', 'b'], 1⟩ (by decide)).2.2.2.2.2
      (by decide)).1,
   (input_split_spec ⟨['a', 'b'], 2⟩ (by decide)).2.2.2.2.1 (by decide)⟩

/-- Modelled from the spec: the error taxonomy surfaced to callers
(section 7): invalid configuration, confirmation mismatch, backend or
stream failure, and operation canceled; the error module is not under
src. -/
inductive InquireError where
  | invalidConfiguration (message : List Char)
  | confirmationMismatch
  | streamFailure (message : List Char)
  | operationCanceled
  deriving DecidableEq

/-- Outcome mapping of prompt_skippable (select/mod.rs under src) as a
function of the outcome of prompt(): a submitted answer maps to Ok Some,
the canceled error maps to Ok None, any other error propagates
unchanged. -/
def promptSkippable {α : Type} (r : Except InquireError α) :
    Except InquireError (Option α) :=
  match r with
  | .ok answer => .ok (some answer)
  | .error .operationCanceled => .ok none
  | .error err => .error err

/-- Claim C9: user cancellation is a distinct expected outcome and never
produces a partial answer: prompt_skippable returns Ok None exactly when
the underlying prompt ends with the canceled outcome, returns Ok Some
answer when the user submits an answer, and propagates every other error
unchanged. -/
theorem prompt_skippable_spec {α : Type} :
    (∀ r : Except InquireError α,
      promptSkippable r = .ok none ↔
        r = .error InquireError.operationCanceled) ∧
    (∀ a : α, promptSkippable (Except.ok a : Except InquireError α) =
        .ok (some a)) ∧
    (∀ e, e ≠ InquireError.operationCanceled →
      promptSkippable (Except.error e : Except InquireError α) =
        .error e) := by
  refine ⟨?_, fun a => rfl, ?_⟩
  · intro r
    rcases r with e | a
    · rcases e with m | _ | m | _ <;> simp [promptSkippable]
    · simp [promptSkippable]
  · intro e he
    rcases e with m | _ | m | _ <;> simp [promptSkippable] <;> simp_all

/-- Witness for claim C9: a mismatch failure propagates unchanged. -/
theorem prompt_skippable_spec_witness :
    promptSkippable (Except.error InquireError.confirmationMismatch :
        Except InquireError Nat) =
      Except.error InquireError.confirmationMismatch :=
  (@prompt_skippable_spec Nat).2.2 InquireError.confirmationMismatch
    (by decide)

/-- Validation result (section 3): Valid, or Invalid with a message. -/
inductive Validation where
  | valid
  | invalid (message : List Char)
  deriving DecidableEq

/-- Outcome of a password prompt run over a finite key script: a
submitted answer, cancellation, or exhaustion of the script while the
driver still waits for a key (the point where the fake terminal of the
source tests panics with its stream-ended message). -/
inductive PasswordOutcome where
  | answer (value : List Char)
  | canceled
  | outOfKeys
  deriving DecidableEq

/-- State of the password prompt driver: the input buffer, the stored
first answer when in the confirmation stage, and the pending error
message shown on the next redraw. -/
structure PasswordState where
  input : Input
  firstAnswer : Option (List Char)
  error : Option (List Char)
  deriving DecidableEq

/-- Fresh driver state: empty buffer, first entry stage, no error. -/
def PasswordState.initial : PasswordState := ⟨⟨[], 0⟩, none, none⟩

/-- Error message recorded when the two confirmation entries differ. -/
def mismatchMessage : List Char := "The answers do not match".toList

/-- Modelled from the spec: delete_word_left erases from the word
boundary to the left of the cursor up to the cursor (sections 3 and 4.1;
the input module is not under src). -/
def Input.deleteWordLeft (inp : Input) : Input :=
  { content := inp.content.take inp.moveWordLeft.cursor ++
      inp.content.drop inp.cursor
    cursor := inp.moveWordLeft.cursor }

/-- Modelled from the spec: application of a non-submit editing action to
the input buffer (section 4.5 step 4; the driver is not under src). -/
def applyEditAction (a : InputAction) (inp : Input) : Input :=
  match a with
  | .moveLeft => inp.moveLeft
  | .moveRight => inp.moveRight
  | .moveToStart => inp.moveToStart
  | .moveToEnd => inp.moveToEnd
  | .moveWordLeft => inp.moveWordLeft
  | .moveWordRight => inp.moveWordRight
  | .deleteLeft => inp.deleteLeft
  | .deleteRight => inp.deleteRight
  | .deleteWordLeft => inp.deleteWordLeft
  | .insert c => inp.insert c
  | .submit => inp
  | .cancel => inp

/-- Modelled from the spec: one Submit step of the password prompt driver
(section 4.5 steps 5 and 6; the driver is not under src). The validator
runs on the current buffer value: on Invalid the buffer is kept
untouched, the message is recorded, and the loop continues; on Valid a
non-confirmable prompt terminates with the answer, while a confirmable
prompt in the first stage stores the answer and clears the buffer for
the confirmation stage; in the confirmation stage an equal value
terminates with the stored answer. For an unequal value the design
document prescribes terminating with a mismatch failure, but the source
test input_confirmation_different (password/test.rs under src) expects
the prompt to keep reading keys after the mismatch (its fake key stream
runs dry), so the mismatch branch follows the source test: the driver
records the mismatch error, clears the buffer and the stored answer, and
re-enters the first entry stage. -/
def passwordSubmit (confirm : Bool) (validator : List Char → Validation)
    (st : PasswordState) : PasswordOutcome ⊕ PasswordState :=
  match validator st.input.content with
  | .invalid message => .inr { st with error := some message }
  | .valid =>
      if confirm then
        match st.firstAnswer with
        | none =>
            .inr { input := ⟨[], 0⟩
                   firstAnswer := some st.input.content
                   error := none }
        | some first =>
            if st.input.content = first then .inl (.answer first)
            else
              .inr { input := ⟨[], 0⟩
                     firstAnswer := none
                     error := some mismatchMessage }
      else .inl (.answer st.input.content)

/-- Modelled from the spec: the password prompt control loop over a
finite key script (section 4.5; the driver is not under src). Each key is
mapped through the shared input action mapping; unmapped keys are
discarded; Cancel aborts with the canceled outcome; Submit runs the
submit step; every other action edits the buffer. An exhausted script
while the driver still waits for a key ends the run in outOfKeys. -/
def runPassword (confirm : Bool) (validator : List Char → Validation) :
    List Key → PasswordState → PasswordOutcome
  | [], _ => .outOfKeys
  | key :: rest, st =>
      match InputAction.fromKey key () with
      | none => runPassword confirm validator rest st
      | some .cancel => .canceled
      | some .submit =>
          match passwordSubmit confirm validator st with
          | .inl outcome => outcome
          | .inr st2 => runPassword confirm validator rest st2
      | some a =>
          runPassword confirm validator rest
            { st with input := applyEditAction a st.input }

/-- Unmodified character keys for a text, as produced by the fake
terminal of the source tests. -/
def charKeys (text : List Char) : List Key :=
  text.map (fun c => Key.char c KeyModifiers.NONE)

/-- The driver state reached after one Submit, ignoring termination (used
to iterate failing submits). -/
def submitKeepState (confirm : Bool) (validator : List Char → Validation)
    (st : PasswordState) : PasswordState :=
  match passwordSubmit confirm validator st with
  | .inl _ => st
  | .inr st2 => st2

/-- Validator of the validated-retry source test: accepts exactly the
values whose length lies strictly between 5 and 10 (password/test.rs
under src, input_correction_after_validation). -/
def lenBetween (ans : List Char) : Validation :=
  if 5 < ans.length ∧ ans.length < 10 then Validation.valid
  else Validation.invalid ['i', 'n', 'v', 'a', 'l', 'i', 'd']

/-- Claim C1 counterexample: with confirmation enabled and a validator
accepting everything, the script typing 1234567890, Enter, abcdefghij,
Enter does not end in a mismatch failure: after the mismatched second
Submit the driver is still reading keys, so the run ends only because
the script is exhausted (the source test expects the fake stream to run
dry at exactly this point), and appending a further matching pair of
entries makes the same run succeed — a retry is in fact offered. -/
theorem password_confirmation_mismatch_cex :
    runPassword true (fun _ => Validation.valid)
        (charKeys "1234567890".toList ++ [Key.enter] ++
          charKeys "abcdefghij".toList ++ [Key.enter])
        PasswordState.initial = PasswordOutcome.outOfKeys ∧
    runPassword true (fun _ => Validation.valid)
        (charKeys "1234567890".toList ++ [Key.enter] ++
          charKeys "abcdefghij".toList ++ [Key.enter] ++
          charKeys "ab".toList ++ [Key.enter] ++
          charKeys "ab".toList ++ [Key.enter])
        PasswordState.initial = PasswordOutcome.answer "ab".toList :=
  ⟨by decide, by decide⟩

/-- Claim C1 (amended): during the confirmation stage, on Submit with a
valid value the driver compares the new buffer value to the stored first
answer: when equal it terminates with that answer — in particular typing
1234567890, Enter, 1234567890, Enter yields the answer 1234567890 — and
when not equal it does not terminate: it records the mismatch error,
clears the buffer and the stored answer, and re-enters the first entry
stage, so for the input typing 1234567890, Enter, abcdefghij, Enter the
driver keeps reading keys and the run ends only by exhausting the
script. -/
theorem password_confirmation_submit (validator : List Char → Validation)
    (st : PasswordState) (first : List Char)
    (hst : st.firstAnswer = some first)
    (hv : validator st.input.content = Validation.valid) :
    (st.input.content = first →
      passwordSubmit true validator st =
        Sum.inl (PasswordOutcome.answer first)) ∧
    (st.input.content ≠ first →
      passwordSubmit true validator st =
        Sum.inr ⟨⟨[], 0⟩, none, some mismatchMessage⟩) ∧
    runPassword true (fun _ => Validation.valid)
        (charKeys "1234567890".toList ++ [Key.enter] ++
          charKeys "1234567890".toList ++ [Key.enter])
        PasswordState.initial =
      PasswordOutcome.answer "1234567890".toList ∧
    runPassword true (fun _ => Validation.valid)
        (charKeys "1234567890".toList ++ [Key.enter] ++
          charKeys "abcdefghij".toList ++ [Key.enter])
        PasswordState.initial = PasswordOutcome.outOfKeys := by
  refine ⟨?_, ?_, by decide, by decide⟩
  · intro heq
    unfold passwordSubmit
    rw [hv, hst]
    simp [heq]
  · intro hne
    unfold passwordSubmit
    rw [hv, hst]
    simp [hne]

/-- Witness for claim C1 at concrete confirmation-stage states: a
matching entry terminates with the answer, a differing entry resets to
the first stage. -/
theorem password_confirmation_submit_witness :
    passwordSubmit true (fun _ => Validation.valid)
        ⟨⟨['a'], 1⟩, some ['a'], none⟩ =
      Sum.inl (PasswordOutcome.answer ['a']) ∧
    passwordSubmit true (fun _ => Validation.valid)
        ⟨⟨['b'], 1⟩, some ['a'], none⟩ =
      Sum.inr ⟨⟨[], 0⟩, none, some mismatchMessage⟩ :=
  ⟨(password_confirmation_submit (fun _ => Validation.valid)
      ⟨⟨['a'], 1⟩, some ['a'], none⟩ ['a'] rfl rfl).1 rfl,
   (password_confirmation_submit (fun _ => Validation.valid)
      ⟨⟨['b'], 1⟩, some ['a'], none⟩ ['a'] rfl rfl).2.1 (by decide)⟩

/-- Claim C2: when the validator returns Invalid the Submit step leaves
the input buffer exactly as it was — content and cursor — records the
error message for the next redraw, and continues the loop; iterating any
number of submits under an always-invalid validator never changes the
buffer; and the validated-retry script — typing 1234567890, Enter
(rejected by the validator accepting only lengths strictly between 5 and
10), five Backspaces, yes, Enter — succeeds with 12345yes. -/
theorem password_invalid_keeps_buffer (confirm : Bool)
    (validator : List Char → Validation) (st : PasswordState)
    (message : List Char)
    (hv : validator st.input.content = Validation.invalid message) :
    passwordSubmit confirm validator st =
      Sum.inr { st with error := some message } ∧
    (∀ (validator2 : List Char → Validation),
      (∀ v, ∃ m, validator2 v = Validation.invalid m) →
      ∀ (n : Nat) (st2 : PasswordState),
        ((submitKeepState confirm validator2)^[n] st2).input = st2.input) ∧
    runPassword false lenBetween
        (charKeys "1234567890".toList ++ [Key.enter] ++
          List.replicate 5 Key.backspace ++ charKeys "yes".toList ++
          [Key.enter])
        PasswordState.initial =
      PasswordOutcome.answer "12345yes".toList := by
  refine ⟨by simp [passwordSubmit, hv], ?_, by decide⟩
  intro validator2 hall n
  induction n with
  | zero => intro st2; rfl
  | succ n ih =>
      intro st2
      rw [Function.iterate_succ_apply, ih]
      obtain ⟨m, hm⟩ := hall st2.input.content
      simp [submitKeepState, passwordSubmit, hm]

/-- Witness for claim C2 at the concrete state of the source test: the
rejected ten-character value is kept byte for byte together with its
cursor. -/
theorem password_invalid_keeps_buffer_witness :
    passwordSubmit false lenBetween
        ⟨⟨"1234567890".toList, 10⟩, none, none⟩ =
      Sum.inr ⟨⟨"1234567890".toList, 10⟩, none,
        some ['i', 'n', 'v', 'a', 'l', 'i', 'd']⟩ :=
  (password_invalid_keeps_buffer false lenBetween
      ⟨⟨"1234567890".toList, 10⟩, none, none⟩
      ['i', 'n', 'v', 'a', 'l', 'i', 'd'] (by decide)).1

end Inquire
